import Mathlib

/-!
Verification of the async ticket server (src/src/data.rs, src/src/lib.rs).

The embedding models raw strings as Lean `String`s and measures them by
UTF-8 byte size, matching Rust's `str::len`.  The ticket store's `BTreeMap`
is modelled as an association list whose lookup returns the first binding;
since the store only ever inserts fresh keys this coincides with map
semantics.  The `u64` counter is modelled as `Nat`: in the builds the test
suite exercises, `self.counter += 1` panics on overflow before any wrap
could occur, so within every reachable execution the counter behaves as an
unbounded natural.

Panics of a connection task (an `.unwrap()` on a decode failure or on a
missing ticket id) are modelled as `none` outcomes; the accept loop in
`ticket_handler` awaits each spawned task and unwraps its join result, so a
task panic also terminates the loop, which the trace model below reflects.
-/

namespace TicketServer

/-- Byte length of a string, as Rust's `str::len` counts it (UTF-8 bytes). -/
def byteLen (s : String) : Nat := s.utf8ByteSize

/-- `Status` from data.rs. -/
inductive Status where
  | ToDo
  | InProgress
  | Done
deriving DecidableEq, Repr

/-- `TicketTitle(String)` newtype from data.rs. -/
structure TicketTitle where
  raw : String
deriving DecidableEq, Repr

/-- `TicketDescription(String)` newtype from data.rs. -/
structure TicketDescription where
  raw : String
deriving DecidableEq, Repr

/-- `TicketTitleError` from data.rs. -/
inductive TicketTitleError where
  | Empty
  | TooLong
deriving DecidableEq, Repr

/-- `TicketDescriptionError` from data.rs. -/
inductive TicketDescriptionError where
  | Empty
  | TooLong
deriving DecidableEq, Repr

/-- `validate_title` from data.rs: empty check first, then the 50-byte bound
(`title.is_empty()` is `title.len() == 0` on byte length). -/
def validate_title (title : String) : Except TicketTitleError Unit :=
  if byteLen title = 0 then .error .Empty
  else if byteLen title > 50 then .error .TooLong
  else .ok ()

/-- `validate_description` from data.rs: empty check first, then the
500-byte bound. -/
def validate_description (description : String) : Except TicketDescriptionError Unit :=
  if byteLen description = 0 then .error .Empty
  else if byteLen description > 500 then .error .TooLong
  else .ok ()

/-- `impl TryFrom<String> for TicketTitle`: validate, then wrap the owned
string unchanged. -/
def TicketTitle.tryFromString (value : String) : Except TicketTitleError TicketTitle :=
  match validate_title value with
  | .error e => .error e
  | .ok _ => .ok ⟨value⟩

/-- `impl TryFrom<&str> for TicketTitle`: validate, then wrap
`value.to_string()` (a copy with the same contents). -/
def TicketTitle.tryFromStr (value : String) : Except TicketTitleError TicketTitle :=
  match validate_title value with
  | .error e => .error e
  | .ok _ => .ok ⟨value⟩

/-- `impl TryFrom<String> for TicketDescription`. -/
def TicketDescription.tryFromString (value : String) :
    Except TicketDescriptionError TicketDescription :=
  match validate_description value with
  | .error e => .error e
  | .ok _ => .ok ⟨value⟩

/-- `impl TryFrom<&str> for TicketDescription`: wraps `value.to_string()`. -/
def TicketDescription.tryFromStr (value : String) :
    Except TicketDescriptionError TicketDescription :=
  match validate_description value with
  | .error e => .error e
  | .ok _ => .ok ⟨value⟩

/-- `TicketId(u64)` from data.rs; see the module comment on the `u64`. -/
abbrev TicketId := Nat

/-- `TicketDraft` from data.rs. -/
structure TicketDraft where
  title : TicketTitle
  description : TicketDescription
deriving DecidableEq, Repr

/-- `Ticket` from data.rs. -/
structure Ticket where
  id : TicketId
  title : TicketTitle
  description : TicketDescription
  status : Status
deriving DecidableEq, Repr

/-- `TicketPatch` from data.rs. -/
structure TicketPatch where
  id : TicketId
  title : Option TicketTitle
  description : Option TicketDescription
  status : Option Status
deriving DecidableEq, Repr

/-- First-binding lookup in the association list modelling the `BTreeMap`. -/
def lookupTicket (k : TicketId) : List (TicketId × Ticket) → Option Ticket
  | [] => none
  | (k', t) :: rest => if k' = k then some t else lookupTicket k rest

/-- Overwrite the binding for `k` in place, modelling a write through the
`Arc<RwLock<Ticket>>` handle stored in the map. -/
def setTicket (k : TicketId) (t' : Ticket) :
    List (TicketId × Ticket) → List (TicketId × Ticket)
  | [] => []
  | (k', t) :: rest =>
      if k' = k then (k', t') :: rest else (k', t) :: setTicket k t' rest

/-- `TicketStore` from data.rs: the `BTreeMap<TicketId, Arc<RwLock<Ticket>>>`
and the private `u64` counter. -/
structure TicketStore where
  tickets : List (TicketId × Ticket)
  counter : Nat
deriving DecidableEq, Repr

/-- `TicketStore::new`. -/
def TicketStore.new : TicketStore :=
  { tickets := [], counter := 0 }

/-- `TicketStore::add_ticket`: take the counter as the new id, increment the
counter, build a `Ticket` with `status = ToDo` from the draft, insert it,
return the id.  The Rust method mutates `self` and returns the id; here the
updated store is returned alongside. -/
def TicketStore.add_ticket (s : TicketStore) (draft : TicketDraft) :
    TicketStore × TicketId :=
  let id := s.counter
  let t : Ticket :=
    { id := id
      title := draft.title
      description := draft.description
      status := Status.ToDo }
  ({ tickets := (id, t) :: s.tickets, counter := s.counter + 1 }, id)

/-- `TicketStore::get`: lookup, returning a handle to the ticket if present. -/
def TicketStore.get (s : TicketStore) (id : TicketId) : Option Ticket :=
  lookupTicket id s.tickets

/-- JSON values, the parse result of `serde_json` on a request payload.
Only non-negative integral numbers are represented; other numbers would in
any case fail to decode as a `TicketId`. -/
inductive Json where
  | null
  | bool (b : Bool)
  | num (n : Nat)
  | str (s : String)
  | arr (elems : List Json)
  | obj (fields : List (String × Json))

/-- Field lookup in a JSON object (first occurrence; serde rejects duplicate
keys, which the model does not produce). -/
def lookupField (k : String) : List (String × Json) → Option Json
  | [] => none
  | (k', v) :: rest => if k' = k then some v else lookupField k rest

/-- The serde-derived `Deserialize` for the newtype `TicketTitle(String)`:
it accepts any JSON string and wraps it, applying NO length or emptiness
validation (data.rs derives `Deserialize` without `try_from`). -/
def decodeTicketTitle : Json → Option TicketTitle
  | .str s => some ⟨s⟩
  | _ => none

/-- The serde-derived `Deserialize` for `TicketDescription(String)`: accepts
any JSON string, with no validation. -/
def decodeTicketDescription : Json → Option TicketDescription
  | .str s => some ⟨s⟩
  | _ => none

/-- The derived `Deserialize` for `TicketId(u64)`: a JSON number in `u64`
range. -/
def decodeTicketId : Json → Option TicketId
  | .num n => if n < 2 ^ 64 then some n else none
  | _ => none

/-- The derived `Deserialize` for `Status`: one of the three unit-variant
names. -/
def decodeStatus : Json → Option Status
  | .str s =>
      if s = "ToDo" then some .ToDo
      else if s = "InProgress" then some .InProgress
      else if s = "Done" then some .Done
      else none
  | _ => none

/-- The derived `Deserialize` for `TicketDraft`: an object with `title` and
`description` fields (unknown fields are ignored, serde's default). -/
def decodeTicketDraft : Json → Option TicketDraft
  | .obj fs => do
      let tj ← lookupField "title" fs
      let t ← decodeTicketTitle tj
      let dj ← lookupField "description" fs
      let d ← decodeTicketDescription dj
      some { title := t, description := d }
  | _ => none

/-- Decoding of an `Option<T>` struct field per serde: a missing field and an
explicit `null` both give `None`; any other value must decode as `T`. -/
def decodeOptField {α : Type} (dec : Json → Option α) :
    Option Json → Option (Option α)
  | none => some none
  | some .null => some none
  | some j => (dec j).map some

/-- The derived `Deserialize` for `TicketPatch`: required `id`, optional
`title`, `description`, `status`. -/
def decodeTicketPatch : Json → Option TicketPatch
  | .obj fs => do
      let idj ← lookupField "id" fs
      let id ← decodeTicketId idj
      let title ← decodeOptField decodeTicketTitle (lookupField "title" fs)
      let description ← decodeOptField decodeTicketDescription (lookupField "description" fs)
      let status ← decodeOptField decodeStatus (lookupField "status" fs)
      some { id := id, title := title, description := description, status := status }
  | _ => none

/-- `Command` from lib.rs. -/
inductive Command where
  | Insert (draft : TicketDraft)
  | Get (id : TicketId)
  | Update (patch : TicketPatch)
deriving DecidableEq, Repr

/-- The serde-derived externally-tagged `Deserialize` for `Command` as
invoked by `serde_json::from_slice` in `ticket_handler` (lib.rs line 52): the
payload must be an object with exactly one key, that key must be one of the
three variant names, and its value must decode as the variant's content. -/
def decodeCommand : Json → Option Command
  | .obj [(tag, content)] =>
      if tag = "Insert" then
        match content with
        | .obj fs => do
            let dj ← lookupField "draft" fs
            let d ← decodeTicketDraft dj
            some (.Insert d)
        | _ => none
      else if tag = "Get" then
        match content with
        | .obj fs => do
            let idj ← lookupField "id" fs
            let id ← decodeTicketId idj
            some (.Get id)
        | _ => none
      else if tag = "Update" then
        match content with
        | .obj fs => do
            let pj ← lookupField "patch" fs
            let p ← decodeTicketPatch pj
            some (.Update p)
        | _ => none
      else none
  | _ => none

/-- A reply written back on the connection: the `Insert`/`Update` arms reply
with a `TicketId`, the `Get` arm with the full `Ticket`. -/
inductive Response where
  | id (i : TicketId)
  | ticket (t : Ticket)
deriving DecidableEq, Repr

/-- The `Update` arm's field-by-field overwrite (lib.rs lines 70-80): each
`if let Some` replaces the corresponding field; `id` is never assigned. -/
def applyPatch (t : Ticket) (p : TicketPatch) : Ticket :=
  { t with
    title := p.title.getD t.title
    description := p.description.getD t.description
    status := p.status.getD t.status }

/-- The `match request` dispatch in `ticket_handler` (lib.rs lines 54-85),
one decoded command applied against the shared store.  `none` models a panic
of the connection task: the `Get` arm calls `.unwrap()` on the store lookup,
so a missing id panics instead of producing a reply. -/
def dispatchCommand (store : TicketStore) : Command → Option (TicketStore × Response)
  | .Insert draft =>
      let r := store.add_ticket draft
      some (r.1, .id r.2)
  | .Get id =>
      match store.get id with
      | none => none
      | some t => some (store, .ticket t)
  | .Update patch =>
      match store.get patch.id with
      | none => some (store, .id patch.id)
      | some t =>
          some ({ store with tickets := setTicket patch.id (applyPatch t patch) store.tickets },
                .id patch.id)

/-- Events observable at the dispatcher: a connection being accepted, its
reply being written, or its task panicking. -/
inductive Event where
  | accepted (conn : Nat)
  | replied (conn : Nat) (resp : Response)
  | crashed (conn : Nat)
deriving DecidableEq, Repr

/-- The accept loop of `ticket_handler` (lib.rs lines 44-92) over a sequence
of connections, each delivering one parsed request payload.  The loop
accepts a connection, spawns a task for it, and immediately does
`response_handle.await.unwrap()`: the next connection is accepted only after
the current task completes, and if the task panics (decode failure at line
52, or the `Get`-arm unwrap), the unwrap of the join error re-panics in the
loop itself, ending the server: no later connection is ever accepted. -/
def ticket_handler (store : TicketStore) (conn : Nat) : List Json → List Event
  | [] => []
  | payload :: rest =>
      .accepted conn ::
      match decodeCommand payload with
      | none => [.crashed conn]
      | some cmd =>
          match dispatchCommand store cmd with
          | none => [.crashed conn]
          | some (store', resp) =>
              .replied conn resp :: ticket_handler store' (conn + 1) rest

/-- A sequence of decoded commands applied to the store in order; a command
whose dispatch panics leaves the store as it was (and in the real server
also ends the loop, so no later command would run). -/
def runCommands (store : TicketStore) : List Command → TicketStore
  | [] => store
  | c :: cs =>
      match dispatchCommand store c with
      | none => store
      | some (store', _) => runCommands store' cs

/-- Store invariant: every id present as a key in the table is strictly below
the counter. -/
def storeInv (s : TicketStore) : Prop :=
  ∀ k : Nat, (s.get k).isSome = true → k < s.counter

/-- The title `"A title"` used by data.rs's `valid_title` helper. -/
def sampleTitle : TicketTitle := ⟨"A title"⟩

/-- The description `"A description"` used by data.rs's `valid_description`
helper. -/
def sampleDescription : TicketDescription := ⟨"A description"⟩

/-- A draft built from the sample title and description, as in the tests. -/
def sampleDraft : TicketDraft :=
  { title := sampleTitle, description := sampleDescription }

/-- The store after inserting one sample draft. -/
def sampleStore : TicketStore := (TicketStore.new.add_ticket sampleDraft).1

/-- The ticket that insert stores for the sample draft. -/
def sampleTicket : Ticket :=
  { id := 0, title := sampleTitle, description := sampleDescription, status := Status.ToDo }

/-- A patch carrying only a status change, targeting id 0. -/
def samplePatch : TicketPatch :=
  { id := 0, title := none, description := none, status := some Status.InProgress }

/-- A well-formed JSON value that is not any `Command`. -/
def malformedPayload : Json := Json.num 5

/-- A well-formed `Insert` payload with a valid draft. -/
def validInsertPayload : Json :=
  Json.obj [("Insert", Json.obj [("draft", Json.obj
    [("title", Json.str "A title"), ("description", Json.str "A description")])])]

/-- An `Insert` payload whose nested title is the empty string, violating the
title constraints. -/
def invalidInsertPayload : Json :=
  Json.obj [("Insert", Json.obj [("draft", Json.obj
    [("title", Json.str ""), ("description", Json.str "A description")])])]

/-- Overwriting the binding for `k` makes lookup at `k` return the new value,
provided `k` was bound. -/
theorem lookupTicket_setTicket_self (k : TicketId) (t' : Ticket)
    (m : List (TicketId × Ticket)) (h : (lookupTicket k m).isSome = true) :
    lookupTicket k (setTicket k t' m) = some t' := by
  induction m with
  | nil => simp [lookupTicket] at h
  | cons p rest ih =>
    obtain ⟨k', t⟩ := p
    by_cases hk : k' = k
    · simp [lookupTicket, setTicket, hk]
    · simp [lookupTicket, setTicket, hk] at h ⊢
      exact ih h

/-- Overwriting a binding changes no key's presence. -/
theorem lookupTicket_setTicket_isSome (k k' : TicketId) (t' : Ticket)
    (m : List (TicketId × Ticket)) :
    (lookupTicket k' (setTicket k t' m)).isSome = (lookupTicket k' m).isSome := by
  induction m with
  | nil => simp [lookupTicket, setTicket]
  | cons p rest ih =>
    obtain ⟨k0, t0⟩ := p
    by_cases hk : k0 = k
    · by_cases hk' : k0 = k'
      · simp [lookupTicket, setTicket, hk, hk', hk ▸ hk']
      · simp [lookupTicket, setTicket, hk, hk', hk ▸ hk']
    · simp [lookupTicket, setTicket, hk]
      by_cases hk' : k0 = k'
      · simp [hk']
      · simp [hk', ih]

/-- The empty store satisfies the key invariant. -/
theorem storeInv_new : storeInv TicketStore.new := by
  intro k h
  simp [TicketStore.get, TicketStore.new, lookupTicket] at h

/-- `add_ticket` preserves the key invariant. -/
theorem storeInv_add (s : TicketStore) (d : TicketDraft) (hs : storeInv s) :
    storeInv (s.add_ticket d).1 := by
  intro k h
  show k < s.counter + 1
  by_cases hk : s.counter = k
  · omega
  · have h' : (s.get k).isSome = true := by
      simpa [TicketStore.add_ticket, TicketStore.get, lookupTicket, hk] using h
    have := hs k h'
    omega

/-- Dispatching any single command preserves the key invariant. -/
theorem storeInv_dispatch (s s' : TicketStore) (c : Command) (r : Response)
    (hs : storeInv s) (h : dispatchCommand s c = some (s', r)) : storeInv s' := by
  cases c with
  | Insert d =>
    have h1 : (s.add_ticket d).1 = s' := by
      simpa [dispatchCommand] using congrArg (fun x => (Option.map Prod.fst x).getD s') h
    exact h1 ▸ storeInv_add s d hs
  | Get id =>
    cases hg : s.get id with
    | none => simp [dispatchCommand, hg] at h
    | some t =>
      have h1 : s = s' := by
        simpa [dispatchCommand, hg] using congrArg (fun x => (Option.map Prod.fst x).getD s') h
      exact h1 ▸ hs
  | Update p =>
    cases hg : s.get p.id with
    | none =>
      have h1 : s = s' := by
        simpa [dispatchCommand, hg] using congrArg (fun x => (Option.map Prod.fst x).getD s') h
      exact h1 ▸ hs
    | some t =>
      have h1 : { s with tickets := setTicket p.id (applyPatch t p) s.tickets } = s' := by
        simpa [dispatchCommand, hg] using congrArg (fun x => (Option.map Prod.fst x).getD s') h
      subst h1
      intro k hk
      have hk' : (s.get k).isSome = true := by
        simpa [TicketStore.get, lookupTicket_setTicket_isSome] using hk
      exact hs k hk'

/-- Any sequence of dispatched commands preserves the key invariant. -/
theorem storeInv_runCommands (cs : List Command) (s : TicketStore) (hs : storeInv s) :
    storeInv (runCommands s cs) := by
  induction cs generalizing s with
  | nil => simpa [runCommands] using hs
  | cons c cs ih =>
    cases hd : dispatchCommand s c with
    | none => simpa [runCommands, hd] using hs
    | some p =>
      have : runCommands s (c :: cs) = runCommands p.1 cs := by
        simp [runCommands, hd]
      rw [this]
      exact ih p.1 (storeInv_dispatch s p.1 c p.2 hs (by rw [hd]))

/-- Under the key invariant the counter itself is never a key. -/
theorem get_counter_eq_none (s : TicketStore) (hs : storeInv s) :
    s.get s.counter = none := by
  cases hg : s.get s.counter with
  | none => rfl
  | some t =>
    have := hs s.counter (by rw [hg]; rfl)
    exact absurd this (lt_irrefl _)

/-- C1: constructing a `TicketTitle` from a raw string succeeds exactly when
its byte length is in [1, 50] and a `TicketDescription` exactly when it is in
[1, 500]; the empty string fails with `Empty`, a string over the bound fails
with `TooLong`, a string of exactly the bound succeeds, and a successful
value wraps the input string unchanged. -/
theorem title_description_validation (s : String) :
    ((∃ t, TicketTitle.tryFromString s = .ok t) ↔ 1 ≤ byteLen s ∧ byteLen s ≤ 50) ∧
    (byteLen s = 0 → TicketTitle.tryFromString s = .error .Empty) ∧
    (50 < byteLen s → TicketTitle.tryFromString s = .error .TooLong) ∧
    (∀ t, TicketTitle.tryFromString s = .ok t → t.raw = s) ∧
    ((∃ d, TicketDescription.tryFromString s = .ok d) ↔ 1 ≤ byteLen s ∧ byteLen s ≤ 500) ∧
    (byteLen s = 0 → TicketDescription.tryFromString s = .error .Empty) ∧
    (500 < byteLen s → TicketDescription.tryFromString s = .error .TooLong) ∧
    (∀ d, TicketDescription.tryFromString s = .ok d → d.raw = s) := by
  unfold TicketTitle.tryFromString TicketDescription.tryFromString
    validate_title validate_description
  split_ifs with h1 h2 h3 <;>
    refine ⟨?_, ?_, ?_, ?_, ?_, ?_, ?_, ?_⟩ <;> simp_all <;> omega

/-- Witness for C1: the empty string is rejected with `Empty`. -/
theorem title_description_validation_witness :
    TicketTitle.tryFromString "" = .error .Empty :=
  (title_description_validation "").2.1 (by decide)

/-- C2 (code bug): decoding re-applies no validation to nested strings.  The
payload `{"Insert": {"draft": {"title": "", "description": "A description"}}}`
decodes successfully into a `Command` carrying an empty title, even though
`validate_title` rejects the empty string: the derived `Deserialize` for the
newtype bypasses the smart constructor. -/
theorem decode_accepts_invalid_title :
    decodeCommand invalidInsertPayload =
      some (Command.Insert { title := ⟨""⟩, description := ⟨"A description"⟩ }) ∧
    validate_title "" = .error .Empty := by
  constructor <;> rfl

/-- C3 (code bug): with a malformed first request followed by a valid one,
the handler's trace ends at the first connection's crash; the second
connection is never accepted, because the accept loop unwraps the panicked
task's join error and panics itself. -/
theorem decode_failure_kills_listener :
    ticket_handler TicketStore.new 0 [malformedPayload, validInsertPayload] =
      [Event.accepted 0, Event.crashed 0] := by
  rfl

/-- C4 (code bug): a `Get` for an id the store never issued panics the
connection task (the `.unwrap()` on the `None` lookup result, modelled as
`none`) instead of producing an explicit not-found reply. -/
theorem get_missing_id_panics :
    dispatchCommand TicketStore.new (Command.Get 0) = none := rfl

/-- C5: after any sequence of dispatched commands starting from the fresh
store, every key in the table is strictly below the counter; the next
`add_ticket` returns the counter as the new id, increments the counter by
one, and the returned id is not already present; the fresh store's counter
is 0, so successive insert ids are 0, 1, 2, ... and never reused. -/
theorem ids_fresh_strictly_increasing (cs : List Command) (d : TicketDraft) :
    TicketStore.new.counter = 0 ∧
    storeInv (runCommands TicketStore.new cs) ∧
    ((runCommands TicketStore.new cs).add_ticket d).2
      = (runCommands TicketStore.new cs).counter ∧
    ((runCommands TicketStore.new cs).add_ticket d).1.counter
      = (runCommands TicketStore.new cs).counter + 1 ∧
    (runCommands TicketStore.new cs).get ((runCommands TicketStore.new cs).add_ticket d).2
      = none := by
  refine ⟨rfl, storeInv_runCommands cs TicketStore.new storeInv_new, rfl, rfl, ?_⟩
  exact get_counter_eq_none _ (storeInv_runCommands cs TicketStore.new storeInv_new)

/-- Witness for C5: after one insert the key 0 is below the counter. -/
theorem ids_fresh_strictly_increasing_witness :
    0 < (runCommands TicketStore.new [Command.Insert sampleDraft]).counter :=
  (ids_fresh_strictly_increasing [Command.Insert sampleDraft] sampleDraft).2.1 0 (by decide)

/-- C6: `add_ticket` returns the counter as the new id and stores a ticket
whose id is that returned id, whose title and description are the draft's,
and whose status is `ToDo`; an immediate `get` with the returned id finds
exactly that ticket. -/
theorem add_ticket_stores_draft (s : TicketStore) (d : TicketDraft) :
    (s.add_ticket d).2 = s.counter ∧
    (s.add_ticket d).1.get (s.add_ticket d).2 =
      some { id := (s.add_ticket d).2, title := d.title,
             description := d.description, status := Status.ToDo } := by
  refine ⟨rfl, ?_⟩
  simp [TicketStore.add_ticket, TicketStore.get, lookupTicket]

/-- C7: for a ticket present in the store, dispatching `Update` succeeds with
the patch's id, the stored ticket becomes `applyPatch t p`, and `applyPatch`
overwrites exactly the fields present in the patch: the id is never touched,
and any field left `none` keeps its previous value (so a status-only patch
leaves title and description unchanged). -/
theorem patch_overwrites_only_present_fields (s : TicketStore) (p : TicketPatch)
    (t : Ticket) (h : s.get p.id = some t) :
    (∃ s', dispatchCommand s (Command.Update p) = some (s', Response.id p.id) ∧
        s'.get p.id = some (applyPatch t p)) ∧
    (applyPatch t p).id = t.id ∧
    (p.title = none → (applyPatch t p).title = t.title) ∧
    (p.description = none → (applyPatch t p).description = t.description) ∧
    (p.status = none → (applyPatch t p).status = t.status) := by
  refine ⟨?_, rfl, ?_, ?_, ?_⟩
  · refine ⟨{ s with tickets := setTicket p.id (applyPatch t p) s.tickets }, ?_, ?_⟩
    · simp [dispatchCommand, h]
    · show lookupTicket p.id (setTicket p.id (applyPatch t p) s.tickets)
        = some (applyPatch t p)
      refine lookupTicket_setTicket_self _ _ _ ?_
      have h' : lookupTicket p.id s.tickets = some t := h
      rw [h']
      rfl
  · intro hn
    simp [applyPatch, hn]
  · intro hn
    simp [applyPatch, hn]
  · intro hn
    simp [applyPatch, hn]

/-- Witness for C7: a status-only patch applied to the sample ticket keeps
its title. -/
theorem patch_overwrites_witness :
    (applyPatch sampleTicket samplePatch).title = sampleTicket.title :=
  (patch_overwrites_only_present_fields sampleStore samplePatch sampleTicket
    (by decide)).2.2.1 rfl

/-- C8: dispatching `Update` for a patch whose id is absent leaves the store
unchanged and still replies successfully with the patch's own id; and for
every patch, present or not, the `Update` reply carries the patch's id. -/
theorem update_missing_id_noop_success (s : TicketStore) (p : TicketPatch) :
    (s.get p.id = none →
      dispatchCommand s (Command.Update p) = some (s, Response.id p.id)) ∧
    (∃ s', dispatchCommand s (Command.Update p) = some (s', Response.id p.id)) := by
  constructor
  · intro h
    simp [dispatchCommand, h]
  · cases hg : s.get p.id with
    | none => exact ⟨s, by simp [dispatchCommand, hg]⟩
    | some t =>
      exact ⟨{ s with tickets := setTicket p.id (applyPatch t p) s.tickets },
        by simp [dispatchCommand, hg]⟩

/-- Witness for C8: updating id 0 in the empty store is a no-op success. -/
theorem update_missing_id_witness :
    dispatchCommand TicketStore.new (Command.Update samplePatch) =
      some (TicketStore.new, Response.id samplePatch.id) :=
  (update_missing_id_noop_success TicketStore.new samplePatch).1 (by decide)

/-- C9 (code bug): the dispatcher serializes connections.  With two valid
insert requests, the trace shows the second connection accepted only after
the first connection's reply is written: the accept loop awaits each
connection's task before accepting the next, so it imposes a total ordering
between connections beyond the store's locking. -/
theorem dispatcher_serializes_connections :
    ticket_handler TicketStore.new 0 [validInsertPayload, validInsertPayload] =
      [Event.accepted 0, Event.replied 0 (Response.id 0),
       Event.accepted 1, Event.replied 1 (Response.id 1)] := by
  rfl

/-- C10: construction from an owned `String` and from a borrowed `&str`
agree for every input, for titles and for descriptions alike: both validate
the same contents and wrap the same string, so they return identical
results. -/
theorem try_from_paths_agree (s : String) :
    TicketTitle.tryFromString s = TicketTitle.tryFromStr s ∧
    TicketDescription.tryFromString s = TicketDescription.tryFromStr s :=
  ⟨rfl, rfl⟩

end TicketServer
